import Mathlib

/-!
Verification of the BME280 environmental-sensor driver
(`src/sensor/bme280.rs`) against its specification.

The Rust source is shallowly embedded:
* machine integers (`u8`/`u16`/`i8`/`i16`/`i32`/`i64`/`u32`) are modelled as
  `Nat`/`Int` with explicit two's-complement wrapping where the Rust
  arithmetic can overflow (release-mode wrapping semantics);
* Rust `>>` on signed integers is an arithmetic shift, i.e. floor division
  by a power of two, which on `Int` is Euclidean division `/` by `2 ^ n`
  (the divisor is positive);
* Rust `/` on signed integers truncates toward zero (`Int.tdiv`);
* the I2C bus is modelled as an explicit state-passing transport whose
  primitives may fail with an opaque error `ε`; every driver operation
  additionally returns the list of bus transactions it issued;
* the final `as f32` casts of the driver produce values that are exactly
  representable for the properties at issue (the pressure zero sentinel and
  the integral humidity percentage), so compensated outputs are modelled as
  exact rationals (`ℚ`) or integers;
* the blocking delays (`Delay::delay`) perform no bus traffic and carry no
  state relevant to any claim; they are modelled as no-ops.
-/

namespace SensorHal

/-! ### Two's-complement helpers -/

/-- Reinterpret an integer as a wrapped 16-bit two's-complement value
(result of an overflowing cast into `i16`).  `32768 = 2^15`,
`65536 = 2^16`. -/
def wrap16 (x : Int) : Int := (x + 32768) % 65536 - 32768

/-- Reinterpret an integer as a wrapped 32-bit two's-complement value
(Rust release-mode overflow semantics for `i32`).  `2147483648 = 2^31`,
`4294967296 = 2^32`. -/
def wrap32 (x : Int) : Int := (x + 2147483648) % 4294967296 - 2147483648

/-- Reinterpret an integer as a wrapped 64-bit two's-complement value
(Rust release-mode overflow semantics for `i64`).
`9223372036854775808 = 2^63`, `18446744073709551616 = 2^64`. -/
def wrap64 (x : Int) : Int :=
  (x + 9223372036854775808) % 18446744073709551616 - 9223372036854775808

/-- Arithmetic shift right of a two's-complement value: floor division by
`2 ^ n`.  On `Int`, `/` is Euclidean division, which coincides with floor
division because the divisor `2 ^ n` is positive. -/
def asr (x : Int) (n : Nat) : Int := x / ((2 : Int) ^ n)

/-- Rust `<<` on `i32`: bits shifted out of the 32-bit window are
discarded. -/
def shl32 (x : Int) (n : Nat) : Int := wrap32 (x * (2 : Int) ^ n)

/-- Rust `<<` on `i64`: bits shifted out of the 64-bit window are
discarded. -/
def shl64 (x : Int) (n : Nat) : Int := wrap64 (x * (2 : Int) ^ n)

/-- `u16::from_le_bytes [lo, hi]` as an integer value. -/
def toU16 (lo hi : Nat) : Int := (lo + 256 * hi : Nat)

/-- `i16::from_le_bytes [lo, hi]` as an integer value. -/
def toI16 (lo hi : Nat) : Int := wrap16 (lo + 256 * hi : Nat)

/-- `b as i8`: reinterpret a byte as a signed 8-bit value. -/
def toI8 (b : Nat) : Int := if b < 128 then (b : Int) else (b : Int) - 256

/-- `x as u32` for an `i32` value `x`: reinterpret as unsigned. -/
def toU32 (x : Int) : Int := x % 4294967296

/-! ### Calibration store (`Calibration` and `Calibration::from`) -/

/-- BME280 calibration parameters (struct `Calibration`).  Every field holds
the mathematical value of the corresponding Rust machine integer. -/
structure Calibration where
  dig_t1 : Int
  dig_t2 : Int
  dig_t3 : Int
  dig_p1 : Int
  dig_p2 : Int
  dig_p3 : Int
  dig_p4 : Int
  dig_p5 : Int
  dig_p6 : Int
  dig_p7 : Int
  dig_p8 : Int
  dig_p9 : Int
  dig_h1 : Int
  dig_h2 : Int
  dig_h3 : Int
  dig_h4 : Int
  dig_h5 : Int
  dig_h6 : Int
deriving DecidableEq

/-- `Calibration::from(tp_calib: &[u8; 24], h_calib: &[u8; 7])`.
(`from` is a Lean keyword, hence the name `fromBytes`.)

The byte arrays are modelled as lists of byte values; out-of-range indices
default to `0`, matching the zero-initialised Rust buffers.  For `dig_h4`
and `dig_h5` the source computes with `i16::from(byte)`, which is
non-negative and cannot overflow the nibble packing, so the bit operations
are carried out on `Nat`. -/
def Calibration.fromBytes (tp_calib h_calib : List Nat) : Calibration where
  dig_t1 := toU16 (tp_calib.getD 0 0) (tp_calib.getD 1 0)
  dig_t2 := toI16 (tp_calib.getD 2 0) (tp_calib.getD 3 0)
  dig_t3 := toI16 (tp_calib.getD 4 0) (tp_calib.getD 5 0)
  dig_p1 := toU16 (tp_calib.getD 6 0) (tp_calib.getD 7 0)
  dig_p2 := toI16 (tp_calib.getD 8 0) (tp_calib.getD 9 0)
  dig_p3 := toI16 (tp_calib.getD 10 0) (tp_calib.getD 11 0)
  dig_p4 := toI16 (tp_calib.getD 12 0) (tp_calib.getD 13 0)
  dig_p5 := toI16 (tp_calib.getD 14 0) (tp_calib.getD 15 0)
  dig_p6 := toI16 (tp_calib.getD 16 0) (tp_calib.getD 17 0)
  dig_p7 := toI16 (tp_calib.getD 18 0) (tp_calib.getD 19 0)
  dig_p8 := toI16 (tp_calib.getD 20 0) (tp_calib.getD 21 0)
  dig_p9 := toI16 (tp_calib.getD 22 0) (tp_calib.getD 23 0)
  dig_h1 := (h_calib.getD 0 0 : Nat)
  dig_h2 := toI16 (h_calib.getD 1 0) (h_calib.getD 2 0)
  dig_h3 := (h_calib.getD 3 0 : Nat)
  dig_h4 := ((h_calib.getD 4 0 <<< 4) ||| (h_calib.getD 5 0 &&& 0x0F) : Nat)
  dig_h5 := ((h_calib.getD 6 0 <<< 4) ||| (h_calib.getD 5 0 >>> 4) : Nat)
  dig_h6 := toI8 (h_calib.getD 6 0)

/-! ### Compensation engine -/

/-- `Driver::compensate_temperature(adc_t) -> (f32, i64)`.  All intermediate
arithmetic is 32-bit signed; `t_fine` is the 64-bit sum of `var1` and
`var2` (which cannot overflow `i64`, but is wrapped for fidelity to the
release-mode semantics).  The returned Celsius value
`(temperature as f64 / 100.0) as f32` is modelled as the exact rational
`temperature / 100`. -/
def compensate_temperature (c : Calibration) (adc_t : Int) : ℚ × Int :=
  let dig_t1 := c.dig_t1
  let dig_t2 := c.dig_t2
  let dig_t3 := c.dig_t3
  let var1 := asr (wrap32 (wrap32 (asr adc_t 3 - shl32 dig_t1 1) * dig_t2)) 11
  let d := wrap32 (asr adc_t 4 - dig_t1)
  let var2 := asr (wrap32 (asr (wrap32 (d * d)) 12 * dig_t3)) 14
  let t_fine := wrap64 (var1 + var2)
  let temperature := asr (wrap64 (wrap64 (t_fine * 5) + 128)) 8
  ((temperature : ℚ) / 100, t_fine)

/-- Steps 1-3 of `Driver::compensate_pressure`: the denominator term `var1`
as it stands at the zero check of step 4 (64-bit signed arithmetic). -/
def pressure_var1 (c : Calibration) (t_fine : Int) : Int :=
  let v := wrap64 (t_fine - 128000)
  let v1 := wrap64 (asr (wrap64 (wrap64 (v * v) * c.dig_p3)) 8 +
    shl64 (wrap64 (v * c.dig_p2)) 12)
  asr (wrap64 (wrap64 ((2 : Int) ^ 47 + v1) * c.dig_p1)) 33

/-- Steps 1-2 of `Driver::compensate_pressure`: the correction term `var2`
(64-bit signed arithmetic). -/
def pressure_var2 (c : Calibration) (t_fine : Int) : Int :=
  let v := wrap64 (t_fine - 128000)
  let v2 := wrap64 (wrap64 (wrap64 (v * v) * c.dig_p6) +
    shl64 (wrap64 (v * c.dig_p5)) 17)
  wrap64 (v2 + shl64 c.dig_p4 35)

/-- `Driver::compensate_pressure(adc_p, t_fine) -> f32`.  Entirely 64-bit
signed arithmetic; Rust `/` truncates toward zero (`Int.tdiv`).  If the
denominator `var1` is exactly zero the function returns the literal `0.0`
before any division; otherwise the final `(p as f64 / 256.0) as f32` is
modelled as the exact rational `p / 256`. -/
def compensate_pressure (c : Calibration) (adc_p : Int) (t_fine : Int) : ℚ :=
  let var1 := pressure_var1 c t_fine
  let var2 := pressure_var2 c t_fine
  if var1 = 0 then 0
  else
    let p0 := wrap64 (1048576 - adc_p)
    let p1 := wrap64 (Int.tdiv (wrap64 (wrap64 (shl64 p0 31 - var2) * 3125)) var1)
    let v1 := asr (wrap64 (c.dig_p9 * wrap64 (asr p1 13 * asr p1 13))) 25
    let v2 := asr (wrap64 (c.dig_p8 * p1)) 19
    let pf := wrap64 (asr (wrap64 (wrap64 (p1 + v1) + v2)) 8 + shl64 c.dig_p7 4)
    (pf : ℚ) / 256

/-- Steps 1-3 of `Driver::compensate_humidity`: the Q22.10 accumulator
`var5` before the range clamp (32-bit signed arithmetic; `var1` is the
truncating cast `(t_fine - 76800) as i32` of a 64-bit difference). -/
def humidity_var5_raw (c : Calibration) (adc_h : Int) (t_fine : Int) : Int :=
  let var1 := wrap32 (wrap64 (t_fine - 76800))
  let t1 := wrap32 (shl32 adc_h 14 - shl32 c.dig_h4 20)
  let t2 := wrap32 (t1 - wrap32 (c.dig_h5 * var1))
  let var2 := asr (wrap32 (t2 + 16384)) 15
  let x := asr (wrap32 (var1 * c.dig_h6)) 10
  let y := wrap32 (asr (wrap32 (var1 * c.dig_h3)) 11 + 32768)
  let var3 := asr (wrap32 (x * y)) 10
  let var4 := asr (wrap32 (wrap32 (wrap32 (var3 + 2097152) * c.dig_h2) + 8192)) 14
  let var5 := wrap32 (var2 * var4)
  wrap32 (var5 - asr (wrap32 (asr (wrap32 (asr var5 15 * asr var5 15)) 7 * c.dig_h1)) 4)

/-- Step 4 of `Driver::compensate_humidity`: the accumulator clamped to
`[0, 419430400]` (the two `if` range limits of the source). -/
def humidity_var5_clamped (c : Calibration) (adc_h : Int) (t_fine : Int) : Int :=
  let var5 := humidity_var5_raw c adc_h t_fine
  let var5a := if var5 < 0 then 0 else var5
  if var5a > 419430400 then 419430400 else var5a

/-- `Driver::compensate_humidity(adc_h, t_fine) -> f32`: the clamped Q22.10
accumulator shifted right 12 bits, reinterpreted `as u32`, and divided by
`1024`.  The result is a non-negative integer, exactly representable in
`f32`, so it is modelled as an `Int`. -/
def compensate_humidity (c : Calibration) (adc_h : Int) (t_fine : Int) : Int :=
  toU32 (asr (humidity_var5_clamped c adc_h t_fine) 12) / 1024

/-! ### Bus transport model and device controller -/

/-- A bus transaction, as observed on the wire: either a write-then-read of
`len` bytes after sending `cmd`, or a plain write of `data`. -/
inductive Tx where
  | busWriteRead (addr : Nat) (cmd : List Nat) (len : Nat)
  | busWrite (addr : Nat) (data : List Nat)
deriving DecidableEq

/-- The `embedded_hal::i2c::I2c` transport consumed by the driver, modelled
as a deterministic state machine over an arbitrary state type `σ` with an
opaque error type `ε` (`B::Error`).  `doWriteRead s addr cmd len` models
`bus.write_read(addr, &cmd, &mut buf)` for a `len`-byte buffer and returns
the bytes deposited in the buffer; `doWrite` models `bus.write`. -/
structure Transport (ε σ : Type) where
  doWriteRead : σ → Nat → List Nat → Nat → Except ε (List Nat) × σ
  doWrite : σ → Nat → List Nat → Except ε Unit × σ

/-- `enum Error<B>`: the BME280 driver error taxonomy. -/
inductive Error (ε : Type) where
  | raw (e : ε)
  | init
  | busy
deriving DecidableEq

/-- `struct Driver`: the owned driver state.  The `delay_impl` field holds
no bus-relevant state and is omitted; delays are modelled as no-ops. -/
structure Driver where
  address : Nat
  calib : Calibration
deriving DecidableEq

/-- `Driver::read_calibration_data(bus, address)`: reads the 24-byte
temperature/pressure block at `0x88`, the single humidity byte at `0xA1`
into `h_calib[0..1]`, and six further humidity bytes at `0xE1` into
`h_calib[1..7]`, then parses them.  Returns the result, the final bus
state, and the transactions issued (in order). -/
def read_calibration_data {ε σ : Type} (t : Transport ε σ) (s : σ)
    (address : Nat) : Except ε Calibration × σ × List Tx :=
  match t.doWriteRead s address [0x88] 24 with
  | (Except.error e, s1) =>
      (Except.error e, s1, [Tx.busWriteRead address [0x88] 24])
  | (Except.ok tp_calib, s1) =>
    match t.doWriteRead s1 address [0xA1] 1 with
    | (Except.error e, s2) =>
        (Except.error e, s2,
          [Tx.busWriteRead address [0x88] 24, Tx.busWriteRead address [0xA1] 1])
    | (Except.ok hb, s2) =>
      match t.doWriteRead s2 address [0xE1] 6 with
      | (Except.error e, s3) =>
          (Except.error e, s3,
            [Tx.busWriteRead address [0x88] 24, Tx.busWriteRead address [0xA1] 1,
             Tx.busWriteRead address [0xE1] 6])
      | (Except.ok he, s3) =>
          let h_calib := [hb.getD 0 0, he.getD 0 0, he.getD 1 0, he.getD 2 0,
            he.getD 3 0, he.getD 4 0, he.getD 5 0]
          (Except.ok (Calibration.fromBytes tp_calib h_calib), s3,
            [Tx.busWriteRead address [0x88] 24, Tx.busWriteRead address [0xA1] 1,
             Tx.busWriteRead address [0xE1] 6])

/-- `Driver::new(clock, bus, address)`: waits 3 ms (no-op here), reads the
status register `0xF3`, fails with `Error::Init` if bit 0 is set, loads the
calibration, then performs the three configuration writes (`0xF2`, `0xF4`,
`0xF5`), each followed by a 10 ms settle delay (no-ops here). -/
def Driver.new {ε σ : Type} (t : Transport ε σ) (s : σ)
    (address : Option Nat) : Except (Error ε) Driver × σ × List Tx :=
  let addr := address.getD 0x76
  match t.doWriteRead s addr [0xF3] 1 with
  | (Except.error e, s1) =>
      (Except.error (Error.raw e), s1, [Tx.busWriteRead addr [0xF3] 1])
  | (Except.ok status, s1) =>
    if status.getD 0 0 &&& 0x01 ≠ 0 then
      (Except.error Error.init, s1, [Tx.busWriteRead addr [0xF3] 1])
    else
      match read_calibration_data t s1 addr with
      | (Except.error e, s2, log) =>
          (Except.error (Error.raw e), s2, Tx.busWriteRead addr [0xF3] 1 :: log)
      | (Except.ok calib, s2, log) =>
        match t.doWrite s2 addr [0xF2, 0x01] with
        | (Except.error e, s3) =>
            (Except.error (Error.raw e), s3,
              Tx.busWriteRead addr [0xF3] 1 :: log ++ [Tx.busWrite addr [0xF2, 0x01]])
        | (Except.ok _, s3) =>
          match t.doWrite s3 addr [0xF4, 0x27] with
          | (Except.error e, s4) =>
              (Except.error (Error.raw e), s4,
                Tx.busWriteRead addr [0xF3] 1 :: log ++
                  [Tx.busWrite addr [0xF2, 0x01], Tx.busWrite addr [0xF4, 0x27]])
          | (Except.ok _, s4) =>
            match t.doWrite s4 addr [0xF5, 0x00] with
            | (Except.error e, s5) =>
                (Except.error (Error.raw e), s5,
                  Tx.busWriteRead addr [0xF3] 1 :: log ++
                    [Tx.busWrite addr [0xF2, 0x01], Tx.busWrite addr [0xF4, 0x27],
                     Tx.busWrite addr [0xF5, 0x00]])
            | (Except.ok _, s5) =>
                (Except.ok { address := addr, calib := calib }, s5,
                  Tx.busWriteRead addr [0xF3] 1 :: log ++
                    [Tx.busWrite addr [0xF2, 0x01], Tx.busWrite addr [0xF4, 0x27],
                     Tx.busWrite addr [0xF5, 0x00]])

/-- `Driver::read_raw_data(bus)`: a single burst read of 8 registers
starting at `0xF7`, unpacked into the 20-bit pressure and temperature
codes and the 16-bit humidity code.  The byte values are non-negative, so
the `i32` bit operations of the source are carried out on `Nat`. -/
def Driver.read_raw_data {ε σ : Type} (d : Driver) (t : Transport ε σ)
    (s : σ) : Except ε (Int × Int × Int) × σ × List Tx :=
  match t.doWriteRead s d.address [0xF7] 8 with
  | (Except.error e, s1) =>
      (Except.error e, s1, [Tx.busWriteRead d.address [0xF7] 8])
  | (Except.ok data, s1) =>
      let press_raw : Nat :=
        (data.getD 0 0 <<< 12) ||| (data.getD 1 0 <<< 4) ||| (data.getD 2 0 >>> 4)
      let temp_raw : Nat :=
        (data.getD 3 0 <<< 12) ||| (data.getD 4 0 <<< 4) ||| (data.getD 5 0 >>> 4)
      let hum_raw : Nat := (data.getD 6 0 <<< 8) ||| data.getD 7 0
      (Except.ok ((press_raw : Int), (temp_raw : Int), (hum_raw : Int)), s1,
        [Tx.busWriteRead d.address [0xF7] 8])

/-- `Driver::read(bus)`: raw acquisition followed by the three compensation
stages.  The handle is returned alongside the result to make explicit that
`read` never mutates the stored address or calibration. -/
def Driver.read {ε σ : Type} (d : Driver) (t : Transport ε σ) (s : σ) :
    Except ε (ℚ × ℚ × Int) × Driver × σ × List Tx :=
  match d.read_raw_data t s with
  | (Except.error e, s1, log) => (Except.error e, d, s1, log)
  | (Except.ok (adc_p, adc_t, adc_h), s1, log) =>
      let tr := compensate_temperature d.calib adc_t
      let pressure := compensate_pressure d.calib adc_p tr.2
      let humidity := compensate_humidity d.calib adc_h tr.2
      (Except.ok (tr.1, pressure, humidity), d, s1, log)

/-- `Driver::reset(bus)`: issues the soft-reset command `0xB6` to register
`0xE0`, waits 5 ms (no-op here), then reloads the stored calibration from
NVM.  On failure the previously stored calibration is kept. -/
def Driver.reset {ε σ : Type} (d : Driver) (t : Transport ε σ) (s : σ) :
    Except ε Unit × Driver × σ × List Tx :=
  match t.doWrite s d.address [0xE0, 0xB6] with
  | (Except.error e, s1) => (Except.error e, d, s1, [Tx.busWrite d.address [0xE0, 0xB6]])
  | (Except.ok _, s1) =>
    match read_calibration_data t s1 d.address with
    | (Except.error e, s2, log) =>
        (Except.error e, d, s2, Tx.busWrite d.address [0xE0, 0xB6] :: log)
    | (Except.ok calib, s2, log) =>
        (Except.ok (), { d with calib := calib }, s2,
          Tx.busWrite d.address [0xE0, 0xB6] :: log)

/-- Number of read (`write_read`) transactions in a transaction log. -/
def countReads (l : List Tx) : Nat :=
  (l.filter fun tx =>
    match tx with
    | Tx.busWriteRead _ _ _ => true
    | Tx.busWrite _ _ => false).length

/-! ### Concrete transports and fixtures used by witnesses -/

/-- A bus on which every transaction succeeds and every read returns
zero-filled bytes. -/
def okTransport : Transport Unit Unit where
  doWriteRead _ _ _ n := (Except.ok (List.replicate n 0), ())
  doWrite _ _ _ := (Except.ok (), ())

/-- A bus whose status register reads back `0x01` (image update in
progress); every other read returns zeros. -/
def busyTransport : Transport Unit Unit where
  doWriteRead _ _ cmd n :=
    if cmd = [0xF3] then (Except.ok [1], ()) else (Except.ok (List.replicate n 0), ())
  doWrite _ _ _ := (Except.ok (), ())

/-- A bus that answers the raw-data burst read at `0xF7` with a fixed
8-byte sample; every other read returns zeros. -/
def burstTransport : Transport Unit Unit where
  doWriteRead _ _ cmd n :=
    if cmd = [0xF7] then
      (Except.ok [0x12, 0x34, 0x56, 0x78, 0x9A, 0xBC, 0xDE, 0xF0], ())
    else (Except.ok (List.replicate n 0), ())
  doWrite _ _ _ := (Except.ok (), ())

/-- A bus on which every read transaction fails (writes still succeed). -/
def failTransport : Transport Unit Unit where
  doWriteRead _ _ _ _ := (Except.error (), ())
  doWrite _ _ _ := (Except.ok (), ())

/-- The calibration parsed from all-zero NVM contents. -/
def zeroCalib : Calibration :=
  Calibration.fromBytes (List.replicate 24 0) (List.replicate 7 0)

/-- The calibration parsed from all-`9` NVM contents (a deliberately
different snapshot, used to exhibit wholesale replacement on reset). -/
def nineCalib : Calibration :=
  Calibration.fromBytes (List.replicate 24 9) (List.replicate 7 9)

/-- A driver handle at the default address holding `zeroCalib`. -/
def zeroDriver : Driver := { address := 0x76, calib := zeroCalib }

/-- A driver handle at the default address holding `nineCalib`. -/
def nineDriver : Driver := { address := 0x76, calib := nineCalib }

/-- The transaction log of a successful calibration load. -/
def calLoadLog : List Tx :=
  [Tx.busWriteRead 0x76 [0x88] 24, Tx.busWriteRead 0x76 [0xA1] 1,
   Tx.busWriteRead 0x76 [0xE1] 6]

/-! ### Shared helper lemmas -/

/-- Folding a left shift and a bitwise or of a small addend into plain
arithmetic: `(a <<< n) ||| b = 2 ^ n * a + b` when `b < 2 ^ n`. -/
theorem lor_shiftLeft_add (a : Nat) {b n : Nat} (hb : b < 2 ^ n) :
    (a <<< n) ||| b = 2 ^ n * a + b := by
  rw [Nat.shiftLeft_eq, Nat.mul_comm, ← Nat.mul_add_lt_is_or hb]

/-- Every positional byte of a byte list (default `0`) is below 256. -/
theorem getD_lt_of_forall_lt (l : List Nat) (h : ∀ b ∈ l, b < 256) (i : Nat) :
    l.getD i 0 < 256 := by
  rw [List.getD_eq_getElem?_getD]
  cases hg : l[i]? with
  | none => simp
  | some a => simpa using h a (List.getElem?_mem hg)

/-- Characterisation of `i16::from_le_bytes`: the parsed value is congruent
to the little-endian 16-bit word modulo `2^16` and lies in the signed
16-bit range. -/
theorem toI16_spec (lo hi : Nat) (hlo : lo < 256) (hhi : hi < 256) :
    toI16 lo hi % 65536 = lo + 256 * hi ∧
    -32768 ≤ toI16 lo hi ∧ toI16 lo hi < 32768 := by
  unfold toI16 wrap16
  omega

/-- Reinterpreting `b as i8` back as unsigned recovers the byte. -/
theorem toI8_emod (b : Nat) (hb : b < 256) : toI8 b % 256 = b := by
  unfold toI8
  split <;> omega

/-- The humidity accumulator after step 4 lies in `[0, 419430400]`. -/
theorem humidity_clamped_bounds (c : Calibration) (adc_h t_fine : Int) :
    0 ≤ humidity_var5_clamped c adc_h t_fine ∧
    humidity_var5_clamped c adc_h t_fine ≤ 419430400 := by
  simp only [humidity_var5_clamped]
  split_ifs <;> omega

/-- The compensated humidity equals the clamped accumulator shifted right
12 bits and divided by 1024, and lies in `[0, 100]`. -/
theorem compensate_humidity_eq_and_bounds (c : Calibration) (adc_h t_fine : Int) :
    compensate_humidity c adc_h t_fine =
      humidity_var5_clamped c adc_h t_fine / 4096 / 1024 ∧
    0 ≤ compensate_humidity c adc_h t_fine ∧
    compensate_humidity c adc_h t_fine ≤ 100 := by
  obtain ⟨h0, h1⟩ := humidity_clamped_bounds c adc_h t_fine
  unfold compensate_humidity toU32 asr
  have h2 : ((2 : Int) ^ (12 : Nat)) = 4096 := by norm_num
  rw [h2]
  refine ⟨?_, ?_, ?_⟩ <;> omega

/-! ### Claim theorems -/

/-- C1: for every 24-byte `tp_block` and 7-byte `h_block`, the calibration
parse produces `H4 = (h[4] <<< 4) ||| (h[5] &&& 0xF)` and
`H5 = (h[6] <<< 4) ||| (h[5] >>> 4)` — arithmetically `16*h[4] + h[5]%16`
and `16*h[6] + h[5]/16`, so `h[5]` contributes its low nibble to `H4` and
its high nibble to `H5` — and every 16-bit temperature/pressure field is
decoded little-endian (low byte first; signed fields in two's
complement). -/
theorem calibration_parse_packing (tp h : List Nat)
    (htp : ∀ b ∈ tp, b < 256) (hh : ∀ b ∈ h, b < 256) :
    (Calibration.fromBytes tp h).dig_h4 =
      ((16 * h.getD 4 0 + h.getD 5 0 % 16 : Nat) : Int) ∧
    (Calibration.fromBytes tp h).dig_h5 =
      ((16 * h.getD 6 0 + h.getD 5 0 / 16 : Nat) : Int) ∧
    (Calibration.fromBytes tp h).dig_t1 =
      ((tp.getD 0 0 + 256 * tp.getD 1 0 : Nat) : Int) ∧
    (Calibration.fromBytes tp h).dig_p1 =
      ((tp.getD 6 0 + 256 * tp.getD 7 0 : Nat) : Int) ∧
    ((Calibration.fromBytes tp h).dig_t2 % 65536 = tp.getD 2 0 + 256 * tp.getD 3 0 ∧
      -32768 ≤ (Calibration.fromBytes tp h).dig_t2 ∧
      (Calibration.fromBytes tp h).dig_t2 < 32768) ∧
    ((Calibration.fromBytes tp h).dig_t3 % 65536 = tp.getD 4 0 + 256 * tp.getD 5 0 ∧
      -32768 ≤ (Calibration.fromBytes tp h).dig_t3 ∧
      (Calibration.fromBytes tp h).dig_t3 < 32768) ∧
    ((Calibration.fromBytes tp h).dig_p2 % 65536 = tp.getD 8 0 + 256 * tp.getD 9 0 ∧
      -32768 ≤ (Calibration.fromBytes tp h).dig_p2 ∧
      (Calibration.fromBytes tp h).dig_p2 < 32768) ∧
    ((Calibration.fromBytes tp h).dig_p3 % 65536 = tp.getD 10 0 + 256 * tp.getD 11 0 ∧
      -32768 ≤ (Calibration.fromBytes tp h).dig_p3 ∧
      (Calibration.fromBytes tp h).dig_p3 < 32768) ∧
    ((Calibration.fromBytes tp h).dig_p4 % 65536 = tp.getD 12 0 + 256 * tp.getD 13 0 ∧
      -32768 ≤ (Calibration.fromBytes tp h).dig_p4 ∧
      (Calibration.fromBytes tp h).dig_p4 < 32768) ∧
    ((Calibration.fromBytes tp h).dig_p5 % 65536 = tp.getD 14 0 + 256 * tp.getD 15 0 ∧
      -32768 ≤ (Calibration.fromBytes tp h).dig_p5 ∧
      (Calibration.fromBytes tp h).dig_p5 < 32768) ∧
    ((Calibration.fromBytes tp h).dig_p6 % 65536 = tp.getD 16 0 + 256 * tp.getD 17 0 ∧
      -32768 ≤ (Calibration.fromBytes tp h).dig_p6 ∧
      (Calibration.fromBytes tp h).dig_p6 < 32768) ∧
    ((Calibration.fromBytes tp h).dig_p7 % 65536 = tp.getD 18 0 + 256 * tp.getD 19 0 ∧
      -32768 ≤ (Calibration.fromBytes tp h).dig_p7 ∧
      (Calibration.fromBytes tp h).dig_p7 < 32768) ∧
    ((Calibration.fromBytes tp h).dig_p8 % 65536 = tp.getD 20 0 + 256 * tp.getD 21 0 ∧
      -32768 ≤ (Calibration.fromBytes tp h).dig_p8 ∧
      (Calibration.fromBytes tp h).dig_p8 < 32768) ∧
    ((Calibration.fromBytes tp h).dig_p9 % 65536 = tp.getD 22 0 + 256 * tp.getD 23 0 ∧
      -32768 ≤ (Calibration.fromBytes tp h).dig_p9 ∧
      (Calibration.fromBytes tp h).dig_p9 < 32768) := by
  have htp' := getD_lt_of_forall_lt tp htp
  have hh' := getD_lt_of_forall_lt h hh
  have hand : h.getD 5 0 &&& 0x0F = h.getD 5 0 % 16 :=
    (Nat.and_pow_two_sub_one_eq_mod (h.getD 5 0) 4).trans rfl
  have hshr : h.getD 5 0 >>> 4 = h.getD 5 0 / 16 :=
    (Nat.shiftRight_eq_div_pow (h.getD 5 0) 4).trans rfl
  have e4 : (h.getD 4 0 <<< 4) ||| (h.getD 5 0 &&& 0x0F) =
      16 * h.getD 4 0 + h.getD 5 0 % 16 := by
    rw [hand, lor_shiftLeft_add _ (Nat.mod_lt _ (by norm_num) :
      h.getD 5 0 % 16 < 2 ^ 4)]
    norm_num
  have e5 : (h.getD 6 0 <<< 4) ||| (h.getD 5 0 >>> 4) =
      16 * h.getD 6 0 + h.getD 5 0 / 16 := by
    rw [hshr, lor_shiftLeft_add _ (show h.getD 5 0 / 16 < 2 ^ 4 by
      have := hh' 5; omega)]
    norm_num
  refine ⟨congrArg _ e4, congrArg _ e5, rfl, rfl, ?_, ?_, ?_, ?_, ?_, ?_, ?_, ?_, ?_, ?_⟩
  · exact toI16_spec _ _ (htp' 2) (htp' 3)
  · exact toI16_spec _ _ (htp' 4) (htp' 5)
  · exact toI16_spec _ _ (htp' 8) (htp' 9)
  · exact toI16_spec _ _ (htp' 10) (htp' 11)
  · exact toI16_spec _ _ (htp' 12) (htp' 13)
  · exact toI16_spec _ _ (htp' 14) (htp' 15)
  · exact toI16_spec _ _ (htp' 16) (htp' 17)
  · exact toI16_spec _ _ (htp' 18) (htp' 19)
  · exact toI16_spec _ _ (htp' 20) (htp' 21)
  · exact toI16_spec _ _ (htp' 22) (htp' 23)

/-- C1 witness: the packing theorem evaluated on a concrete 24-byte and
7-byte block; `h[5] = 171 = 0xAB` contributes `0xB` to `H4` and `0xA` to
`H5`. -/
theorem calibration_parse_packing_witness :
    (Calibration.fromBytes (List.range 24) [17, 34, 51, 68, 85, 171, 120]).dig_h4 = 1371 ∧
    (Calibration.fromBytes (List.range 24) [17, 34, 51, 68, 85, 171, 120]).dig_h5 = 1930 ∧
    (Calibration.fromBytes (List.range 24) [17, 34, 51, 68, 85, 171, 120]).dig_t1 = 256 :=
  ⟨((calibration_parse_packing (List.range 24) [17, 34, 51, 68, 85, 171, 120]
      (by decide) (by decide)).1).trans (by decide),
   ((calibration_parse_packing (List.range 24) [17, 34, 51, 68, 85, 171, 120]
      (by decide) (by decide)).2.1).trans (by decide),
   ((calibration_parse_packing (List.range 24) [17, 34, 51, 68, 85, 171, 120]
      (by decide) (by decide)).2.2.1).trans (by decide)⟩

/-- C9: the calibration parse takes `dig_h6` from `h_block[6]` reinterpreted
as a signed 8-bit value — the same byte whose value forms the upper 8 bits
of `dig_h5` — and `dig_h5 >> 4` always recovers `dig_h6` reinterpreted as
unsigned. -/
theorem calibration_h5_h6_share_byte (tp h : List Nat)
    (hh : ∀ b ∈ h, b < 256) :
    (Calibration.fromBytes tp h).dig_h6 % 256 = (h.getD 6 0 : Int) ∧
    -128 ≤ (Calibration.fromBytes tp h).dig_h6 ∧
    (Calibration.fromBytes tp h).dig_h6 < 128 ∧
    asr (Calibration.fromBytes tp h).dig_h5 4 =
      (Calibration.fromBytes tp h).dig_h6 % 256 := by
  have h5lt := getD_lt_of_forall_lt h hh 5
  have h6lt := getD_lt_of_forall_lt h hh 6
  have hshr : h.getD 5 0 >>> 4 = h.getD 5 0 / 16 :=
    (Nat.shiftRight_eq_div_pow (h.getD 5 0) 4).trans rfl
  have e5 : (h.getD 6 0 <<< 4) ||| (h.getD 5 0 >>> 4) =
      16 * h.getD 6 0 + h.getD 5 0 / 16 := by
    rw [hshr, lor_shiftLeft_add _ (show h.getD 5 0 / 16 < 2 ^ 4 by omega)]
    norm_num
  refine ⟨toI8_emod _ h6lt, ?_, ?_, ?_⟩
  · show -128 ≤ toI8 (h.getD 6 0)
    unfold toI8; split <;> omega
  · show toI8 (h.getD 6 0) < 128
    unfold toI8; split <;> omega
  · show asr (((h.getD 6 0 <<< 4) ||| (h.getD 5 0 >>> 4) : Nat) : Int) 4 =
      toI8 (h.getD 6 0) % 256
    rw [e5]
    unfold asr toI8
    rw [show ((2 : Int) ^ (4 : Nat)) = 16 by norm_num]
    split <;> omega

/-- C9 witness: with `h[5] = 171` and `h[6] = 200`, `dig_h6` is the signed
reinterpretation `200 - 256 = -56` and `dig_h5 >> 4` recovers `200`. -/
theorem calibration_h5_h6_share_byte_witness :
    asr (Calibration.fromBytes (List.range 24)
        [17, 34, 51, 68, 85, 171, 200]).dig_h5 4 =
      (Calibration.fromBytes (List.range 24)
        [17, 34, 51, 68, 85, 171, 200]).dig_h6 % 256 ∧
    (Calibration.fromBytes (List.range 24)
        [17, 34, 51, 68, 85, 171, 200]).dig_h6 = -56 :=
  ⟨(calibration_h5_h6_share_byte (List.range 24) [17, 34, 51, 68, 85, 171, 200]
      (by decide)).2.2.2, by decide⟩

/-- C2: for raw humidity codes in `[0, 65535]`, any fine-temperature value
and any calibration, the Q22.10 accumulator is clamped to
`[0, 419430400]` before the final conversion and the returned humidity
lies in `[0, 100]`. -/
theorem compensate_humidity_clamp_and_range (c : Calibration)
    (adc_h t_fine : Int) (h0 : 0 ≤ adc_h) (h1 : adc_h ≤ 65535) :
    0 ≤ humidity_var5_clamped c adc_h t_fine ∧
    humidity_var5_clamped c adc_h t_fine ≤ 419430400 ∧
    0 ≤ compensate_humidity c adc_h t_fine ∧
    compensate_humidity c adc_h t_fine ≤ 100 := by
  obtain ⟨a, b⟩ := humidity_clamped_bounds c adc_h t_fine
  obtain ⟨_, d, e⟩ := compensate_humidity_eq_and_bounds c adc_h t_fine
  exact ⟨a, b, d, e⟩

/-- C2 witness: the clamp and range bounds at a concrete calibration, raw
code and fine temperature. -/
theorem compensate_humidity_clamp_and_range_witness :
    (0 : Int) ≤ 30000 ∧ (30000 : Int) ≤ 65535 ∧
    (0 ≤ humidity_var5_clamped zeroCalib 30000 76800 ∧
      humidity_var5_clamped zeroCalib 30000 76800 ≤ 419430400 ∧
      0 ≤ compensate_humidity zeroCalib 30000 76800 ∧
      compensate_humidity zeroCalib 30000 76800 ≤ 100) :=
  ⟨by decide, by decide,
    compensate_humidity_clamp_and_range zeroCalib 30000 76800 (by decide) (by decide)⟩

/-- C10: the compensated humidity is always the whole number obtained as
the integer quotient of the clamped accumulator shifted right 12 bits by
1024 — an exact integer between 0 and 100, never fractional. -/
theorem compensate_humidity_integer_percent (c : Calibration)
    (adc_h t_fine : Int) :
    compensate_humidity c adc_h t_fine =
      humidity_var5_clamped c adc_h t_fine / 4096 / 1024 ∧
    ∃ n : Nat, n ≤ 100 ∧ compensate_humidity c adc_h t_fine = (n : Int) := by
  obtain ⟨he, h0, h1⟩ := compensate_humidity_eq_and_bounds c adc_h t_fine
  refine ⟨he, (compensate_humidity c adc_h t_fine).toNat, ?_, ?_⟩ <;> omega

/-- C3: whenever the nine-step pressure formula drives the denominator
term `var1` to exactly zero, `compensate_pressure` returns exactly `0.0`;
the division is syntactically guarded behind `var1 ≠ 0`. -/
theorem compensate_pressure_zero_denom (c : Calibration)
    (adc_p t_fine : Int) (h : pressure_var1 c t_fine = 0) :
    compensate_pressure c adc_p t_fine = 0 := by
  simp [compensate_pressure, h]

/-- C3 witness: the all-zero calibration has `dig_p1 = 0`, which drives the
denominator to zero; the compensated pressure is exactly `0`. -/
theorem compensate_pressure_zero_denom_witness :
    pressure_var1 zeroCalib 0 = 0 ∧ compensate_pressure zeroCalib 0 0 = 0 :=
  ⟨by decide, compensate_pressure_zero_denom zeroCalib 0 0 (by decide)⟩

/-- C4 counterexample: on a bus where every transaction succeeds, the
calibration load issues three read transactions, not two as claimed. -/
theorem read_calibration_not_two_reads :
    countReads (read_calibration_data okTransport () 0x76).2.2 = 3 ∧
    countReads (read_calibration_data okTransport () 0x76).2.2 ≠ 2 := by
  constructor <;> decide

/-- C4 (amended): a successful calibration load issues exactly three bus
read transactions — `0x88` for the 24-byte temperature/pressure block,
`0xA1` for the first humidity byte, and `0xE1` for the remaining six —
and no other transactions. -/
theorem read_calibration_three_reads {ε σ : Type} (t : Transport ε σ)
    (s : σ) (addr : Nat) (c : Calibration) (s' : σ) (log : List Tx)
    (h : read_calibration_data t s addr = (Except.ok c, s', log)) :
    countReads log = 3 ∧ log.length = 3 := by
  rcases e1 : t.doWriteRead s addr [0x88] 24 with ⟨r1, s1⟩
  cases r1 with
  | error e => simp [read_calibration_data, e1] at h
  | ok tp =>
    rcases e2 : t.doWriteRead s1 addr [0xA1] 1 with ⟨r2, s2⟩
    cases r2 with
    | error e => simp [read_calibration_data, e1, e2] at h
    | ok hb =>
      rcases e3 : t.doWriteRead s2 addr [0xE1] 6 with ⟨r3, s3⟩
      cases r3 with
      | error e => simp [read_calibration_data, e1, e2, e3] at h
      | ok he =>
        simp [read_calibration_data, e1, e2, e3] at h
        obtain ⟨-, -, hlog⟩ := h
        rw [← hlog]
        exact ⟨rfl, rfl⟩

/-- C4 (amended) witness: the three-transaction log of a successful load on
a concrete bus. -/
theorem read_calibration_three_reads_witness :
    countReads calLoadLog = 3 ∧ calLoadLog.length = 3 :=
  read_calibration_three_reads okTransport () 0x76 zeroCalib () calLoadLog rfl

/-- C5: provided the first status-register read succeeds and returns the
byte `b`, construction fails with `Error::Init` if and only if bit 0 of
`b` is set, regardless of all other bits. -/
theorem new_init_iff_status_bit {ε σ : Type} (t : Transport ε σ) (s : σ)
    (address : Option Nat) (b : Nat) (s1 : σ)
    (h : t.doWriteRead s (address.getD 0x76) [0xF3] 1 = (Except.ok [b], s1)) :
    ((Driver.new t s address).1 = Except.error Error.init) ↔ b &&& 1 ≠ 0 := by
  have hiff : (b &&& 1 ≠ 0) ↔ (b % 2 = 1) := by rw [Nat.and_one_is_mod]; omega
  rw [hiff]
  by_cases hb : b % 2 = 1
  · simp [Driver.new, h, hb]
  · rcases e1 : read_calibration_data t s1 (address.getD 0x76) with ⟨r1, s2, log⟩
    cases r1 with
    | error e => simp [Driver.new, h, hb, e1]
    | ok calib =>
      rcases e2 : t.doWrite s2 (address.getD 0x76) [0xF2, 0x01] with ⟨r2, s3⟩
      cases r2 with
      | error e => simp [Driver.new, h, hb, e1, e2]
      | ok u2 =>
        rcases e3 : t.doWrite s3 (address.getD 0x76) [0xF4, 0x27] with ⟨r3, s4⟩
        cases r3 with
        | error e => simp [Driver.new, h, hb, e1, e2, e3]
        | ok u3 =>
          rcases e4 : t.doWrite s4 (address.getD 0x76) [0xF5, 0x00] with ⟨r4, s5⟩
          cases r4 with
          | error e => simp [Driver.new, h, hb, e1, e2, e3, e4]
          | ok u4 => simp [Driver.new, h, hb, e1, e2, e3, e4]

/-- C5 witness: on a bus whose status register reads back `0x01`,
construction fails with `Error::Init`. -/
theorem new_init_iff_status_bit_witness :
    ((Driver.new busyTransport () none).1 = Except.error Error.init) ↔
      (1 &&& 1 ≠ 0) :=
  new_init_iff_status_bit busyTransport () none 1 () rfl

/-- C6: raw-sample acquisition performs exactly one burst read of 8
registers starting at `0xF7`, reconstructs the 20-bit pressure and
temperature codes as `(msb <<< 12) ||| (lsb <<< 4) ||| (xlsb >>> 4)` —
arithmetically `4096*msb + 16*lsb + xlsb/16` — and the humidity code as
the big-endian pack `256*msb + lsb`. -/
theorem read_raw_single_burst_unpack {ε σ : Type} (d : Driver)
    (t : Transport ε σ) (s : σ) (data : List Nat) (s1 : σ)
    (hbytes : ∀ b ∈ data, b < 256)
    (h : t.doWriteRead s d.address [0xF7] 8 = (Except.ok data, s1)) :
    d.read_raw_data t s =
      (Except.ok
        (((4096 * data.getD 0 0 + 16 * data.getD 1 0 + data.getD 2 0 / 16 : Nat) : Int),
         ((4096 * data.getD 3 0 + 16 * data.getD 4 0 + data.getD 5 0 / 16 : Nat) : Int),
         ((256 * data.getD 6 0 + data.getD 7 0 : Nat) : Int)),
       s1, [Tx.busWriteRead d.address [0xF7] 8]) := by
  have hb := getD_lt_of_forall_lt data hbytes
  have unpack20 : ∀ m l x : Nat, l < 256 → x < 256 →
      (m <<< 12) ||| (l <<< 4) ||| (x >>> 4) = 4096 * m + 16 * l + x / 16 := by
    intro m l x hl hx
    have hl4 : l <<< 4 = 16 * l := by rw [Nat.shiftLeft_eq]; ring
    have hx4 : x >>> 4 = x / 16 := (Nat.shiftRight_eq_div_pow x 4).trans rfl
    have h2 : (m <<< 12) ||| (l <<< 4) = 4096 * m + 16 * l := by
      rw [hl4, lor_shiftLeft_add _ (show 16 * l < 2 ^ 12 by omega)]
      norm_num
    have h3 : 4096 * m + 16 * l = (256 * m + l) <<< 4 := by
      rw [Nat.shiftLeft_eq]; ring
    calc (m <<< 12) ||| (l <<< 4) ||| (x >>> 4)
        = ((256 * m + l) <<< 4) ||| (x / 16) := by rw [h2, h3, hx4]
      _ = 2 ^ 4 * (256 * m + l) + x / 16 :=
          @lor_shiftLeft_add (256 * m + l) (x / 16) 4 (by omega)
      _ = 4096 * m + 16 * l + x / 16 := by ring
  have ep : (data.getD 0 0 <<< 12) ||| (data.getD 1 0 <<< 4) |||
      (data.getD 2 0 >>> 4) =
      4096 * data.getD 0 0 + 16 * data.getD 1 0 + data.getD 2 0 / 16 :=
    unpack20 _ _ _ (hb 1) (hb 2)
  have et : (data.getD 3 0 <<< 12) ||| (data.getD 4 0 <<< 4) |||
      (data.getD 5 0 >>> 4) =
      4096 * data.getD 3 0 + 16 * data.getD 4 0 + data.getD 5 0 / 16 :=
    unpack20 _ _ _ (hb 4) (hb 5)
  have eh : (data.getD 6 0 <<< 8) ||| data.getD 7 0 =
      256 * data.getD 6 0 + data.getD 7 0 := by
    rw [lor_shiftLeft_add _ (show data.getD 7 0 < 2 ^ 8 from hb 7)]
    norm_num
  simp only [Driver.read_raw_data, h]
  rw [ep, et, eh]

/-- C6 witness: a concrete burst `12 34 56 78 9A BC DE F0` unpacks to the
20-bit codes `0x12345`, `0x789AB` and the 16-bit code `0xDEF0`. -/
theorem read_raw_single_burst_unpack_witness :
    zeroDriver.read_raw_data burstTransport () =
      (Except.ok ((74565 : Int), (493995 : Int), (57072 : Int)), (),
        [Tx.busWriteRead 0x76 [0xF7] 8]) :=
  (read_raw_single_burst_unpack zeroDriver burstTransport ()
    [0x12, 0x34, 0x56, 0x78, 0x9A, 0xBC, 0xDE, 0xF0] ()
    (by decide) rfl).trans rfl

/-- C7: after a successful soft reset, the stored calibration is exactly
the fresh parse of the bytes read back after the reset command — it does
not depend on the previously stored calibration — and the address is
unchanged. -/
theorem reset_reloads_calibration {ε σ : Type} (d : Driver)
    (t : Transport ε σ) (s : σ) (s1 s2 s3 s4 : σ) (tp hb he : List Nat)
    (hw : t.doWrite s d.address [0xE0, 0xB6] = (Except.ok (), s1))
    (h1 : t.doWriteRead s1 d.address [0x88] 24 = (Except.ok tp, s2))
    (h2 : t.doWriteRead s2 d.address [0xA1] 1 = (Except.ok hb, s3))
    (h3 : t.doWriteRead s3 d.address [0xE1] 6 = (Except.ok he, s4)) :
    (d.reset t s).1 = Except.ok () ∧
    (d.reset t s).2.1.calib =
      Calibration.fromBytes tp
        [hb.getD 0 0, he.getD 0 0, he.getD 1 0, he.getD 2 0, he.getD 3 0,
         he.getD 4 0, he.getD 5 0] ∧
    (d.reset t s).2.1.address = d.address := by
  simp [Driver.reset, read_calibration_data, hw, h1, h2, h3]

/-- C7 witness: a handle holding an all-`9` calibration, reset on a bus
whose NVM reads back zeros, ends up holding exactly the zero parse with no
stale field. -/
theorem reset_reloads_calibration_witness :
    (nineDriver.reset okTransport ()).1 = Except.ok () ∧
    (nineDriver.reset okTransport ()).2.1.calib =
      Calibration.fromBytes (List.replicate 24 0)
        [(List.replicate 1 0).getD 0 0, (List.replicate 6 0).getD 0 0,
         (List.replicate 6 0).getD 1 0, (List.replicate 6 0).getD 2 0,
         (List.replicate 6 0).getD 3 0, (List.replicate 6 0).getD 4 0,
         (List.replicate 6 0).getD 5 0] ∧
    (nineDriver.reset okTransport ()).2.1.address = nineDriver.address :=
  reset_reloads_calibration nineDriver okTransport () () () () ()
    (List.replicate 24 0) (List.replicate 1 0) (List.replicate 6 0)
    rfl rfl rfl rfl

/-- C8: when the burst read fails, `read` propagates the transport error
verbatim, issues exactly one transaction (no retry), and returns the
handle with its stored address and calibration unchanged. -/
theorem read_error_propagates {ε σ : Type} (d : Driver) (t : Transport ε σ)
    (s : σ) (e : ε) (s1 : σ)
    (h : t.doWriteRead s d.address [0xF7] 8 = (Except.error e, s1)) :
    d.read t s = (Except.error e, d, s1, [Tx.busWriteRead d.address [0xF7] 8]) := by
  simp [Driver.read, Driver.read_raw_data, h]

/-- C8 witness: on a bus whose reads fail, `read` returns the error and the
unchanged handle after a single transaction. -/
theorem read_error_propagates_witness :
    zeroDriver.read failTransport () =
      (Except.error (), zeroDriver, (), [Tx.busWriteRead 0x76 [0xF7] 8]) :=
  read_error_propagates zeroDriver failTransport () () () rfl

end SensorHal
